import Mathlib

/-!
Shallow embedding of `src/gallium/drivers/iris/xe/iris_kmd_backend.c`,
the Intel Xe kernel-mode-driver backend of the iris gallium driver.

Kernel ioctls are modelled by an explicit environment that records, for
each ioctl the function may issue, the return code (and any values the
kernel writes back).  Every modelled function returns, besides its C
return value, a trace of the kernel calls it issued, so that statements
about "which kernel calls happen" and their wire arguments are provable.
Machine integers are Nat/Int with explicit reduction mod 2^w where the C
code converts between signed and unsigned widths.
-/

/-- Errno constant `EINVAL` (invalid argument), from `<errno.h>`. -/
def EINVAL : Int := 22

/-- Errno constant `ENOMEM` (out of memory), from `<errno.h>`. -/
def ENOMEM : Int := 12

/-- C conversion of a signed `int` value to `uint32_t`: reduction modulo 2^32. -/
def uint32_ofInt (i : Int) : Nat := (i % (2 ^ 32 : Int)).toNat

/-- C constant `INT64_MAX`, the timeout used for the syncobj wait. -/
def INT64_MAX : Int := 2 ^ 63 - 1

/-- Modelled from the spec: `align64(v, a)` from `util/u_math.h` (not under
`src/`) "rounds the requested size up to the device's minimum memory
alignment"; for the power-of-two alignments the device reports this is
the least multiple of `a` that is `≥ v`. -/
def align64 (v a : Nat) : Nat := (v + a - 1) / a * a

/-- Modelled from the spec: `XE_GEM_CREATE_FLAG_SCANOUT` from
`drm-uapi/xe_drm.h` (not under `src/`), the "scanout-capable" placement
bit set "when requested". Its numeric value does not affect any claim. -/
def XE_GEM_CREATE_FLAG_SCANOUT : Nat := 2 ^ 24

/-- Modelled from the spec: `XE_ENGINE_GET_PROPERTY_BAN` from
`drm-uapi/xe_drm.h` (not under `src/`), the "banned" context property
queried by the health check. Its numeric value does not affect any claim. -/
def XE_ENGINE_GET_PROPERTY_BAN : Nat := 1

/-- The `op` argument of `xe_gem_vm_bind_op`: the `XE_VM_BIND_OP_*`
codes of `drm-uapi/xe_drm.h` that this file uses, as an enumeration
(the code only compares them for equality). -/
inductive XeVmBindOp where
  | map
  | unmap
  | mapUserptr
deriving DecidableEq, Repr

/-- The two `DRM_XE_SYNC_*` flag bits this file ORs into a
`struct drm_xe_sync`, kept symbolic (the code never inspects the
numeric values, it only sets the bits). -/
structure XeSyncFlags where
  syncobj : Bool
  signal : Bool
deriving DecidableEq, Repr

/-- A `struct drm_xe_sync` entry as filled in by this file. -/
structure XeSync where
  handle : Nat
  flags : XeSyncFlags
deriving DecidableEq, Repr

/-- A kernel ioctl issued by the backend, with the wire arguments the
claims talk about. -/
inductive KernelCall where
  | gemCreate (vm_id : Nat) (size : Nat) (flags : Nat)
  | gemMmapOffset (handle : Nat)
  | syncobjCreate
  | vmBind (vm_id : Nat) (num_binds : Nat) (obj : Nat) (obj_offset : Nat)
      (range : Nat) (addr : Nat) (op : XeVmBindOp) (num_syncs : Nat)
      (sync : XeSync)
  | syncobjWait (handle : Nat) (timeout_nsec : Int)
  | syncobjDestroy (handle : Nat)
deriving DecidableEq, Repr

/-- The fields of `struct iris_bufmgr` that this file reads (through
`iris_bufmgr_get_*` accessors); the bufmgr itself is an external
collaborator. -/
structure IrisBufmgr where
  fd : Nat
  global_vm_id : Nat
  /-- devinfo->mem_alignment -/
  mem_alignment : Nat
deriving DecidableEq, Repr

/-- The fields of `struct iris_bo` that this file reads. `userptr` is
`bo->real.userptr`, `map` is the numeric address `(uintptr_t)bo->real.map`,
`imported` is `iris_bo_is_imported(bo)`. -/
structure IrisBo where
  gem_handle : Nat
  size : Nat
  address : Nat
  bufmgr : IrisBufmgr
  imported : Bool
  userptr : Bool
  map : Nat
deriving DecidableEq, Repr

/-- The subset of `alloc_flags` bits `xe_gem_create` tests, as booleans
(the `BO_ALLOC_*` bit values live in `iris/iris_bufmgr.h`, not under
`src/`; the code only tests the three bits). -/
structure AllocFlags where
  protectedContent : Bool
  shared : Bool
  scanout : Bool
deriving DecidableEq, Repr

/-- Kernel responses to the single ioctl `xe_gem_create` may issue. -/
structure CreateEnv where
  /-- return code of `DRM_IOCTL_XE_GEM_CREATE` -/
  gemCreateRet : Int
  /-- `gem_create.handle` written back by the kernel on success -/
  gemCreateHandle : Nat
deriving DecidableEq, Repr

/-- Embedding of `xe_gem_create`.  Returns the C `uint32_t` return value
together with the trace of kernel calls issued.  `regions` is the list of
`regions[i]->instance` values.  Note the C function returns `-EINVAL`
(converted to `uint32_t`) on a protected-content request. -/
def xe_gem_create (env : CreateEnv) (bufmgr : IrisBufmgr) (regions : List Nat)
    (size : Nat) (alloc_flags : AllocFlags) : Nat × List KernelCall :=
  if alloc_flags.protectedContent then
    (uint32_ofInt (-EINVAL), [])
  else
    let vm_id := bufmgr.global_vm_id
    let vm_id := if alloc_flags.shared then 0 else vm_id
    let csize := align64 size bufmgr.mem_alignment
    let flags := if alloc_flags.scanout then XE_GEM_CREATE_FLAG_SCANOUT else 0
    let flags := regions.foldl (fun f inst => f ||| 2 ^ inst) flags
    let call := KernelCall.gemCreate vm_id csize flags
    if env.gemCreateRet ≠ 0 then
      (0, [call])
    else
      (env.gemCreateHandle, [call])

/-- Result of a C function whose body may hit an `assert`. -/
inductive AssertResult (α : Type) where
  | ok (a : α)
  | assertFail
deriving DecidableEq, Repr

/-- Embedding of `xe_bo_set_caching`: the body is `assert(0); return -1;`,
so (with assertions enabled, the build the spec describes) every
invocation faults on the assertion before reaching the return. -/
def xe_bo_set_caching (_bo : IrisBo) (_cached : Bool) : AssertResult Int :=
  if (0 : Nat) ≠ 0 then .ok (-1) else .assertFail

/-- The `enum pipe_reset_status` values this file uses. -/
inductive PipeResetStatus where
  | noReset
  | guiltyContextReset
deriving DecidableEq, Repr

/-- Kernel responses to the property-query ioctl of
`xe_batch_check_for_reset`. -/
structure ResetEnv where
  /-- return code of `DRM_IOCTL_XE_ENGINE_GET_PROPERTY` -/
  getPropertyRet : Int
  /-- `engine_get_property.value` written back by the kernel (u64) -/
  banValue : Nat
deriving DecidableEq, Repr

/-- Embedding of `xe_batch_check_for_reset` for a batch with engine id
`engine_id`: queries the BAN property and reports guilty if the ioctl
failed or the property value is nonzero. -/
def xe_batch_check_for_reset (env : ResetEnv) (_engine_id : Nat) :
    PipeResetStatus :=
  let status := PipeResetStatus.noReset
  let ret := env.getPropertyRet
  if ret ≠ 0 ∨ env.banValue ≠ 0 then PipeResetStatus.guiltyContextReset
  else status

/-- Kernel responses to the four ioctls `xe_gem_vm_bind_op` may issue:
syncobj create (with the handle the kernel writes back), the vm-bind
itself, the syncobj wait, and the syncobj destroy. -/
structure BindEnv where
  syncobjCreateRet : Int
  /-- `create.handle` written back by the kernel on successful create -/
  syncobjHandle : Nat
  vmBindRet : Int
  syncobjWaitRet : Int
  syncobjDestroyRet : Int
deriving DecidableEq, Repr

/-- Embedding of `xe_gem_vm_bind_op bo op`.  Mirrors the C control flow:
create a syncobj (early return on failure); compute handle, range,
offset and the effective op; issue the vm-bind (on failure `goto
bind_error`); on success wait on the syncobj, a wait failure being
only logged while its code stays in `ret`; at `bind_error` destroy the
syncobj, a destroy failure being only logged; return `ret`. -/
def xe_gem_vm_bind_op (env : BindEnv) (bo : IrisBo) (op : XeVmBindOp) :
    Int × List KernelCall :=
  let ret := env.syncobjCreateRet
  if ret ≠ 0 then
    (ret, [.syncobjCreate])
  else
    let sync : XeSync := { handle := env.syncobjHandle,
                           flags := { syncobj := true, signal := true } }
    let handle := if op = XeVmBindOp.unmap then 0 else bo.gem_handle
    let range := if bo.imported then bo.size
                 else align64 bo.size bo.bufmgr.mem_alignment
    let handle := if bo.userptr then 0 else handle
    let obj_offset := if bo.userptr then bo.map else 0
    let op := if bo.userptr ∧ op = XeVmBindOp.map then XeVmBindOp.mapUserptr
              else op
    let bindCall := KernelCall.vmBind bo.bufmgr.global_vm_id 1 handle
        obj_offset range (bo.address % 2 ^ 48) op 1 sync
    let ret := env.vmBindRet
    if ret ≠ 0 then
      (ret, [.syncobjCreate, bindCall, .syncobjDestroy env.syncobjHandle])
    else
      let ret := env.syncobjWaitRet
      (ret, [.syncobjCreate, bindCall,
             .syncobjWait env.syncobjHandle INT64_MAX,
             .syncobjDestroy env.syncobjHandle])

/-- Embedding of `xe_gem_vm_bind`: a bind is `xe_gem_vm_bind_op` with
`XE_VM_BIND_OP_MAP`, succeeding iff it returned 0. -/
def xe_gem_vm_bind (env : BindEnv) (bo : IrisBo) : Bool × List KernelCall :=
  let r := xe_gem_vm_bind_op env bo XeVmBindOp.map
  (r.1 == 0, r.2)

/-- Embedding of `xe_gem_vm_unbind`: an unbind is `xe_gem_vm_bind_op`
with `XE_VM_BIND_OP_UNMAP`, succeeding iff it returned 0. -/
def xe_gem_vm_unbind (env : BindEnv) (bo : IrisBo) : Bool × List KernelCall :=
  let r := xe_gem_vm_bind_op env bo XeVmBindOp.unmap
  (r.1 == 0, r.2)

/-- Recogniser for syncobj-destroy calls in a trace. -/
def KernelCall.isSyncobjDestroy : KernelCall → Bool
  | .syncobjDestroy _ => true
  | _ => false

/-- Recogniser for vm-bind calls in a trace. -/
def KernelCall.isVmBind : KernelCall → Bool
  | .vmBind _ _ _ _ _ _ _ _ _ => true
  | _ => false

/-- The bo used by the concrete witnesses below: kernel-owned, native,
size 4000 with alignment 4096, handle 7, at address 0x10000. -/
def boK : IrisBo :=
  { gem_handle := 7, size := 4000, address := 65536,
    bufmgr := { fd := 3, global_vm_id := 5, mem_alignment := 4096 },
    imported := false, userptr := false, map := 0 }

/-- A user-pointer-backed bo for the witnesses: handle absent, CPU
pointer at numeric address 123456. -/
def boU : IrisBo :=
  { gem_handle := 0, size := 4000, address := 65536,
    bufmgr := { fd := 3, global_vm_id := 5, mem_alignment := 4096 },
    imported := false, userptr := true, map := 123456 }

/-- The mutable per-bo state `xe_batch_submit` touches.  Bos live in a
heap (a list indexed by bo id) so that a bo and the backing bo returned
by `iris_get_backing_bo` can alias; `backing` is the id of the backing
bo (a bo that is not a view over a shared backing allocation has
`backing` equal to its own id). -/
structure BoState where
  address : Nat
  idle : Bool
  /-- `bo->index`, the cached placement-heuristic index (an int; -1 means
  no cached index) -/
  index : Int
  /-- id of `iris_get_backing_bo(bo)` in the heap -/
  backing : Nat
  /-- reference count, decremented by `iris_bo_unreference` -/
  refcount : Nat
deriving DecidableEq, Repr

/-- One `struct iris_batch_fence` of `batch->exec_fences`: the syncobj
handle and whether `IRIS_BATCH_FENCE_SIGNAL` is set in its flags. -/
structure IrisBatchFence where
  handle : Nat
  signal : Bool
deriving DecidableEq, Repr

/-- The fields of `struct iris_batch` that `xe_batch_submit` reads:
the engine id, the referenced bos (`exec_bos`, as heap ids, with
`exec_count` their number) and the fence list. -/
structure IrisBatch where
  engine_id : Nat
  exec_bos : List Nat
  exec_fences : List IrisBatchFence
deriving DecidableEq, Repr

/-- Environment of `xe_batch_submit`: debug flags, the no-hardware mode
flag of the devinfo, whether the `calloc` of the translated sync array
succeeds, and the kernel's return code for `DRM_IOCTL_XE_EXEC`. -/
structure SubmitEnv where
  debugBatch : Bool
  debugSubmit : Bool
  no_hw : Bool
  callocOK : Bool
  execRet : Int
deriving DecidableEq, Repr

/-- An event of the `xe_batch_submit` body, in program order: calls into
the external collaborators, the dependency-lock operations, the one
kernel submission ioctl and the `free` of the sync array. -/
inductive SubmitEvent where
  | unmapBatchBo
  | decodeBatch
  | lock
  | updateSyncobjs
  | dumpFenceList
  | dumpBoList
  | xeExec (engine_id : Nat) (num_batch_buffer : Nat) (address : Nat)
      (syncs : List XeSync) (num_syncs : Nat)
  | unlock
  | freeSyncs
deriving DecidableEq, Repr

/-- Read-modify-write of the bo at heap index `k` (a no-op on an
out-of-range index, which models dereferencing through a valid bo
pointer only). -/
def updateAt (h : List BoState) (k : Nat) (f : BoState → BoState) :
    List BoState :=
  match h.get? k with
  | none => h
  | some b => h.set k (f b)

/-- The write `bo->idle = false; bo->index = -1;` of the bookkeeping
loop. -/
def setIdleIndex (h : List BoState) (i : Nat) : List BoState :=
  updateAt h i fun b => { b with idle := false, index := -1 }

/-- The write `iris_get_backing_bo(bo)->idle = false;` of the
bookkeeping loop, `m` being the backing bo's heap index. -/
def setBackingIdle (h : List BoState) (m : Nat) : List BoState :=
  updateAt h m fun bb => { bb with idle := false }

/-- The reference drop `iris_bo_unreference(bo);` of the bookkeeping
loop (only the count decrement is modelled; freeing at zero is the
external bufmgr's business). -/
def decRef (h : List BoState) (i : Nat) : List BoState :=
  updateAt h i fun b => { b with refcount := b.refcount - 1 }

/-- The per-bo bookkeeping of the loop at the end of `xe_batch_submit`:
`bo->idle = false; bo->index = -1; iris_get_backing_bo(bo)->idle = false;
iris_bo_unreference(bo);`, as sequential reads and writes on the heap
(the backing index is a field of the bo, unchanged by the idle/index
writes, so it may be read from the initial bo state). -/
def submitBoUpdate (h : List BoState) (i : Nat) : List BoState :=
  match h.get? i with
  | none => h
  | some b => decRef (setBackingIdle (setIdleIndex h i) b.backing) i

/-- Result of `xe_batch_submit`: the C return code, the heap after the
bookkeeping loop, and the event trace. -/
structure SubmitResult where
  ret : Int
  heap : List BoState
  events : List SubmitEvent
deriving DecidableEq, Repr

/-- Embedding of `xe_batch_submit`.  Unmaps the batch bo, optionally
decodes it outside the lock, takes the dependency lock, updates the
syncobjs, translates the fence list (returning `-ENOMEM` through
`error_no_sync_mem` — which still unlocks — when the `calloc` fails),
issues `DRM_IOCTL_XE_EXEC` unless `no_hw`, unlocks, frees the sync
array, runs the per-bo bookkeeping loop and returns `ret`. -/
def xe_batch_submit (env : SubmitEnv) (batch : IrisBatch)
    (heap : List BoState) : SubmitResult :=
  let ret : Int := 0
  let ev := [SubmitEvent.unmapBatchBo]
  let ev := if env.debugBatch then ev ++ [SubmitEvent.decodeBatch] else ev
  let ev := ev ++ [SubmitEvent.lock, SubmitEvent.updateSyncobjs]
  let sync_len := batch.exec_fences.length
  if sync_len ≠ 0 ∧ ¬env.callocOK then
    { ret := -ENOMEM, heap := heap, events := ev ++ [SubmitEvent.unlock] }
  else
    let syncs := batch.exec_fences.map fun fence =>
      ({ handle := fence.handle,
         flags := { syncobj := true, signal := fence.signal } } : XeSync)
    let ev := if env.debugBatch ∨ env.debugSubmit then
                ev ++ [SubmitEvent.dumpFenceList, SubmitEvent.dumpBoList]
              else ev
    let address := match batch.exec_bos with
      | [] => 0
      | i :: _ => ((heap.get? i).map (·.address)).getD 0
    let execCall := SubmitEvent.xeExec batch.engine_id 1 address syncs sync_len
    let ret := if env.no_hw then ret else env.execRet
    let ev := if env.no_hw then ev else ev ++ [execCall]
    let ev := ev ++ [SubmitEvent.unlock, SubmitEvent.freeSyncs]
    let heap := batch.exec_bos.foldl submitBoUpdate heap
    { ret := ret, heap := heap, events := ev }

/-- Recogniser for the kernel submission ioctl in the event trace. -/
def SubmitEvent.isXeExec : SubmitEvent → Bool
  | .xeExec _ _ _ _ _ => true
  | _ => false

/-- A concrete two-bo heap for the witnesses: bo 0 is a view whose
backing is bo 1; both start idle with a cached index. -/
def heap0 : List BoState :=
  [{ address := 65536, idle := true, index := 3, backing := 1, refcount := 2 },
   { address := 65536, idle := true, index := 0, backing := 1, refcount := 1 }]

/-- A concrete batch for the witnesses: engine 4, referencing bo 0, one
signal fence. -/
def batch0 : IrisBatch :=
  { engine_id := 4, exec_bos := [0],
    exec_fences := [{ handle := 11, signal := true }] }

/-- Extracts the `range` wire field of a vm-bind call. -/
def KernelCall.bindRange : KernelCall → Option Nat
  | .vmBind _ _ _ _ range _ _ _ _ => some range
  | _ => none

/-- Rounding up never goes below the value: `v ≤ align64 v a` for `a > 0`. -/
theorem le_align64 (v : Nat) {a : Nat} (ha : 0 < a) : v ≤ align64 v a := by
  have h1 := Nat.div_add_mod (v + a - 1) a
  have h2 := Nat.mod_lt (v + a - 1) ha
  unfold align64
  rw [Nat.mul_comm]
  omega

/-- The rounded size is a multiple of the alignment. -/
theorem dvd_align64 (v a : Nat) : a ∣ align64 v a :=
  Dvd.intro ((v + a - 1) / a) (Nat.mul_comm _ _)

/-- Rounding up overshoots by less than one alignment unit. -/
theorem align64_lt (v : Nat) {a : Nat} (ha : 0 < a) :
    align64 v a < v + a := by
  have h1 := Nat.div_mul_le_self (v + a - 1) a
  unfold align64
  omega

/-- C1: the claim says a protected-content creation request returns the
zero "no object" sentinel and issues no kernel call.  The code does skip
the kernel call, but it returns `-EINVAL` out of a `uint32_t`-returning
function, i.e. the nonzero value 4294967274, which callers (who treat
zero as the failure sentinel) would take for a valid handle. -/
theorem xe_gem_create_protected_rejected (env : CreateEnv)
    (bufmgr : IrisBufmgr) (regions : List Nat) (size : Nat)
    (alloc_flags : AllocFlags) (h : alloc_flags.protectedContent = true) :
    xe_gem_create env bufmgr regions size alloc_flags = (4294967274, []) ∧
    (4294967274 : Nat) ≠ 0 := by
  unfold xe_gem_create
  rw [h]
  refine ⟨?_, by decide⟩
  simp only [if_true]
  norm_num [uint32_ofInt, EINVAL]
  rfl

/-- Witness for C1: concrete protected-content request, evaluated. -/
theorem xe_gem_create_protected_rejected_witness :
    xe_gem_create ⟨0, 7⟩ ⟨3, 5, 4096⟩ [] 4096 ⟨true, false, false⟩
      = (4294967274, []) ∧ (4294967274 : Nat) ≠ 0 :=
  xe_gem_create_protected_rejected ⟨0, 7⟩ ⟨3, 5, 4096⟩ [] 4096
    ⟨true, false, false⟩ rfl

/-- C2 counterexample: with syncobj create, vm-bind and wait all
succeeding but the syncobj destroy ioctl failing, Bind reports success —
refuting the claim that a failing destruction step makes Bind return
failure. -/
theorem xe_vm_bind_destroy_failure_ignored :
    (⟨0, 9, 0, 0, -1⟩ : BindEnv).syncobjDestroyRet ≠ 0 ∧
    (xe_gem_vm_bind ⟨0, 9, 0, 0, -1⟩ boK).1 = true := by decide

/-- C2 (amended): Bind/Unbind returns failure if the syncobj creation,
the bind submission, or the wait step fails (a wait failure is logged
but its code is still returned, so the outcome is reported failed); a
destroy failure is only logged and never affects the return value; and
when syncobj creation fails no vm-bind submission is attempted. -/
theorem xe_vm_bind_op_error_paths (env : BindEnv) (bo : IrisBo)
    (op : XeVmBindOp) :
    (env.syncobjCreateRet ≠ 0 →
      (xe_gem_vm_bind_op env bo op).1 = env.syncobjCreateRet ∧
      ((xe_gem_vm_bind_op env bo op).2.countP (·.isVmBind)) = 0) ∧
    (env.syncobjCreateRet = 0 → env.vmBindRet ≠ 0 →
      (xe_gem_vm_bind_op env bo op).1 = env.vmBindRet) ∧
    (env.syncobjCreateRet = 0 → env.vmBindRet = 0 →
      (xe_gem_vm_bind_op env bo op).1 = env.syncobjWaitRet) := by
  unfold xe_gem_vm_bind_op
  refine ⟨fun hc => ?_, fun hc hb => ?_, fun hc hb => ?_⟩
  · simp [hc, List.countP, List.countP.go, KernelCall.isVmBind]
  · simp [hc, hb]
  · simp [hc, hb]

/-- Witness for C2's amended theorem: all three paths at concrete
environments over the concrete bo `boK`. -/
theorem xe_vm_bind_op_error_paths_witness :
    (xe_gem_vm_bind_op ⟨-1, 0, 0, 0, 0⟩ boK XeVmBindOp.map).1 = -1 ∧
    (xe_gem_vm_bind_op ⟨0, 9, -7, 0, 0⟩ boK XeVmBindOp.map).1 = -7 ∧
    (xe_gem_vm_bind_op ⟨0, 9, 0, -3, 0⟩ boK XeVmBindOp.unmap).1 = -3 :=
  ⟨((xe_vm_bind_op_error_paths ⟨-1, 0, 0, 0, 0⟩ boK XeVmBindOp.map).1
      (by decide)).1,
   (xe_vm_bind_op_error_paths ⟨0, 9, -7, 0, 0⟩ boK XeVmBindOp.map).2.1
      rfl (by decide),
   (xe_vm_bind_op_error_paths ⟨0, 9, 0, -3, 0⟩ boK XeVmBindOp.unmap).2.2
      rfl rfl⟩

/-- C3: whenever the scoped syncobj is successfully created, every exit
path of `xe_gem_vm_bind_op` issues exactly one syncobj-destroy call. -/
theorem xe_vm_bind_op_destroys_once (env : BindEnv) (bo : IrisBo)
    (op : XeVmBindOp) (h : env.syncobjCreateRet = 0) :
    ((xe_gem_vm_bind_op env bo op).2.countP (·.isSyncobjDestroy)) = 1 := by
  unfold xe_gem_vm_bind_op
  by_cases hb : env.vmBindRet = 0 <;>
    simp [h, hb, List.countP, List.countP.go, KernelCall.isSyncobjDestroy]

/-- Witness for C3: a failing-wait run over `boK` destroys once. -/
theorem xe_vm_bind_op_destroys_once_witness :
    ((xe_gem_vm_bind_op ⟨0, 9, 0, -4, 0⟩ boK XeVmBindOp.map).2.countP
      (·.isSyncobjDestroy)) = 1 :=
  xe_vm_bind_op_destroys_once ⟨0, 9, 0, -4, 0⟩ boK XeVmBindOp.map rfl

/-- C8: the health check reports guilty exactly when the property query
fails or the kernel reports the ban property nonzero, and healthy
exactly when the query succeeds reporting zero. -/
theorem xe_check_for_reset_spec (env : ResetEnv) (eid : Nat) :
    (xe_batch_check_for_reset env eid = PipeResetStatus.guiltyContextReset
      ↔ (env.getPropertyRet ≠ 0 ∨ env.banValue ≠ 0)) ∧
    (xe_batch_check_for_reset env eid = PipeResetStatus.noReset
      ↔ (env.getPropertyRet = 0 ∧ env.banValue = 0)) := by
  unfold xe_batch_check_for_reset
  by_cases h : env.getPropertyRet ≠ 0 ∨ env.banValue ≠ 0
  · simp only [h, if_pos]
    constructor
    · simp [h]
    · constructor
      · intro hcon
        exact absurd hcon (by simp)
      · intro hcon
        exact absurd h (by tauto)
  · push_neg at h
    simp [h.1, h.2]

/-- C9: `xe_bo_set_caching` hits `assert(0)` for every bo and caching
argument: there is no caching uAPI on this kernel generation. -/
theorem xe_bo_set_caching_asserts (bo : IrisBo) (cached : Bool) :
    xe_bo_set_caching bo cached = AssertResult.assertFail := rfl

/-- C4: once the scoped syncobj exists, a Bind of a user-pointer-backed
bo issues exactly one vm-bind, a map-userptr with `obj = 0` and
`obj_offset` the CPU pointer's numeric address; a Bind of a kernel-owned
bo with a (successfully created, hence nonzero) gem handle issues a
plain map with `obj` that nonzero handle and `obj_offset = 0`. -/
theorem xe_vm_bind_wire_format (env : BindEnv) (bo : IrisBo)
    (h : env.syncobjCreateRet = 0) :
    (bo.userptr = true →
      ((xe_gem_vm_bind env bo).2.filter (·.isVmBind)) =
        [KernelCall.vmBind bo.bufmgr.global_vm_id 1 0 bo.map
           (if bo.imported then bo.size
            else align64 bo.size bo.bufmgr.mem_alignment)
           (bo.address % 2 ^ 48) XeVmBindOp.mapUserptr 1
           ⟨env.syncobjHandle, true, true⟩]) ∧
    (bo.userptr = false → bo.gem_handle ≠ 0 →
      ((xe_gem_vm_bind env bo).2.filter (·.isVmBind)) =
        [KernelCall.vmBind bo.bufmgr.global_vm_id 1 bo.gem_handle 0
           (if bo.imported then bo.size
            else align64 bo.size bo.bufmgr.mem_alignment)
           (bo.address % 2 ^ 48) XeVmBindOp.map 1
           ⟨env.syncobjHandle, true, true⟩] ∧ bo.gem_handle ≠ 0) := by
  unfold xe_gem_vm_bind xe_gem_vm_bind_op
  constructor
  · intro hu
    by_cases hb : env.vmBindRet = 0 <;>
      simp [h, hu, hb, List.filter, KernelCall.isVmBind,
        KernelCall.isSyncobjDestroy]
  · intro hu hh
    refine ⟨?_, hh⟩
    by_cases hb : env.vmBindRet = 0 <;>
      simp [h, hu, hb, List.filter, KernelCall.isVmBind,
        KernelCall.isSyncobjDestroy]

/-- Witness for C4: both halves evaluated, on the user-pointer bo `boU`
and the kernel-owned bo `boK`. -/
theorem xe_vm_bind_wire_format_witness :
    ((xe_gem_vm_bind ⟨0, 9, 0, 0, 0⟩ boU).2.filter (·.isVmBind)) =
      [KernelCall.vmBind 5 1 0 123456 4096 65536 XeVmBindOp.mapUserptr 1
        ⟨9, true, true⟩] ∧
    ((xe_gem_vm_bind ⟨0, 9, 0, 0, 0⟩ boK).2.filter (·.isVmBind)) =
      [KernelCall.vmBind 5 1 7 0 4096 65536 XeVmBindOp.map 1
        ⟨9, true, true⟩] :=
  ⟨(xe_vm_bind_wire_format ⟨0, 9, 0, 0, 0⟩ boU rfl).1 rfl,
   ((xe_vm_bind_wire_format ⟨0, 9, 0, 0, 0⟩ boK rfl).2 rfl
     (by decide)).1⟩

/-- C5: the range of the one vm-bind call a Bind or Unbind issues is the
raw size for an imported bo and the alignment-rounded size otherwise;
and `align64` really is rounding up: the result is the least multiple of
the alignment that is at least the size. -/
theorem xe_vm_bind_op_range (env : BindEnv) (bo : IrisBo)
    (op : XeVmBindOp) (h : env.syncobjCreateRet = 0)
    (ha : 0 < bo.bufmgr.mem_alignment) :
    ((xe_gem_vm_bind_op env bo op).2.filterMap KernelCall.bindRange)
      = [if bo.imported then bo.size
         else align64 bo.size bo.bufmgr.mem_alignment] ∧
    bo.size ≤ align64 bo.size bo.bufmgr.mem_alignment ∧
    bo.bufmgr.mem_alignment ∣ align64 bo.size bo.bufmgr.mem_alignment ∧
    align64 bo.size bo.bufmgr.mem_alignment
      < bo.size + bo.bufmgr.mem_alignment := by
  refine ⟨?_, le_align64 bo.size ha, dvd_align64 _ _, align64_lt bo.size ha⟩
  unfold xe_gem_vm_bind_op
  by_cases hb : env.vmBindRet = 0 <;>
    simp [h, hb, List.filterMap, KernelCall.bindRange]

/-- Witness for C5: size 4000 with alignment 4096 binds range 4096 on
the native bo `boK`; the rounding facts at those numbers. -/
theorem xe_vm_bind_op_range_witness :
    ((xe_gem_vm_bind_op ⟨0, 9, 0, 0, 0⟩ boK XeVmBindOp.map).2.filterMap
      KernelCall.bindRange) = [4096] ∧
    (4000 : Nat) ≤ 4096 ∧ (4096 : Nat) ∣ 4096 ∧ (4096 : Nat) < 4000 + 4096 := by
  have h := xe_vm_bind_op_range ⟨0, 9, 0, 0, 0⟩ boK XeVmBindOp.map rfl
    (by decide)
  refine ⟨?_, by decide, by decide, by decide⟩
  have h1 := h.1
  simpa [boK, align64] using h1

theorem updateAt_get? (h : List BoState) (k : Nat) (f : BoState → BoState)
    (j : Nat) :
    (updateAt h k f).get? j
      = if j = k then (h.get? j).map f else h.get? j := by
  unfold updateAt
  cases hg : h.get? k with
  | none =>
    by_cases hjk : j = k
    · subst hjk
      rw [hg]
      simp
    · simp [hjk]
  | some b =>
    by_cases hjk : j = k
    · subst hjk
      rw [List.get?_set_eq, hg]
      simp [hg]
    · rw [List.get?_set_ne (f b) h fun hh => hjk hh.symm]
      simp [hjk]

theorem updateAt_length (h : List BoState) (k : Nat)
    (f : BoState → BoState) : (updateAt h k f).length = h.length := by
  unfold updateAt
  cases hg : h.get? k <;> simp

theorem submitBoUpdate_length (h : List BoState) (i : Nat) :
    (submitBoUpdate h i).length = h.length := by
  unfold submitBoUpdate
  cases hg : h.get? i with
  | none => rfl
  | some b => simp [decRef, setBackingIdle, setIdleIndex, updateAt_length]

/-- The bookkeeping never changes any bo's `backing` field. -/
theorem submitBoUpdate_backing (h : List BoState) (i k : Nat) :
    ((submitBoUpdate h i).get? k).map (·.backing)
      = (h.get? k).map (·.backing) := by
  unfold submitBoUpdate
  cases hg : h.get? i with
  | none => rfl
  | some b =>
    simp only [decRef, setBackingIdle, setIdleIndex, updateAt_get?]
    split_ifs <;> cases hk : h.get? k <;> simp

/-- The bookkeeping never sets any `idle` flag back to true. -/
theorem submitBoUpdate_idle_sticky (h : List BoState) (i k : Nat)
    (hk : (h.get? k).map (·.idle) = some false) :
    ((submitBoUpdate h i).get? k).map (·.idle) = some false := by
  unfold submitBoUpdate
  cases hg : h.get? i with
  | none => exact hk
  | some b =>
    simp only [decRef, setBackingIdle, setIdleIndex, updateAt_get?]
    split_ifs <;> cases hkk : h.get? k <;> rw [hkk] at hk <;> simp_all

/-- The bookkeeping never moves any `index` field away from -1. -/
theorem submitBoUpdate_index_sticky (h : List BoState) (i k : Nat)
    (hk : (h.get? k).map (·.index) = some (-1)) :
    ((submitBoUpdate h i).get? k).map (·.index) = some (-1) := by
  unfold submitBoUpdate
  cases hg : h.get? i with
  | none => exact hk
  | some b =>
    simp only [decRef, setBackingIdle, setIdleIndex, updateAt_get?]
    split_ifs <;> cases hkk : h.get? k <;> rw [hkk] at hk <;> simp_all

/-- One bookkeeping step on a valid bo clears its idle flag, resets its
index, and clears its backing bo's idle flag. -/
theorem submitBoUpdate_post (h : List BoState) (i : Nat) (b : BoState)
    (hg : h.get? i = some b) (hb : b.backing < h.length) :
    ((submitBoUpdate h i).get? i).map (·.idle) = some false ∧
    ((submitBoUpdate h i).get? i).map (·.index) = some (-1) ∧
    ((submitBoUpdate h i).get? b.backing).map (·.idle) = some false := by
  obtain ⟨bb, hbbs⟩ : ∃ bb, h.get? b.backing = some bb :=
    ⟨_, List.get?_eq_get hb⟩
  unfold submitBoUpdate
  rw [hg]
  simp only [decRef, setBackingIdle, setIdleIndex, updateAt_get?]
  have hg' : h[i]? = some b := by rw [← List.get?_eq_getElem?]; exact hg
  have hbbs' : h[b.backing]? = some bb := by
    rw [← List.get?_eq_getElem?]; exact hbbs
  by_cases hib : i = b.backing
  · rw [← hib] at hbbs hbbs' ⊢
    simp [hg, hg']
  · have hbi : ¬b.backing = i := fun hh => hib hh.symm
    simp [hib, hbi, hg, hbbs, hg', hbbs']

theorem foldl_submit_length (ids : List Nat) (h : List BoState) :
    (ids.foldl submitBoUpdate h).length = h.length := by
  induction ids generalizing h with
  | nil => rfl
  | cons j rest ih => simp [List.foldl_cons, ih, submitBoUpdate_length]

theorem foldl_submit_idle_sticky (ids : List Nat) (h : List BoState)
    (k : Nat) (hk : (h.get? k).map (·.idle) = some false) :
    ((ids.foldl submitBoUpdate h).get? k).map (·.idle) = some false := by
  induction ids generalizing h with
  | nil => exact hk
  | cons j rest ih =>
    exact ih _ (submitBoUpdate_idle_sticky h j k hk)

theorem foldl_submit_index_sticky (ids : List Nat) (h : List BoState)
    (k : Nat) (hk : (h.get? k).map (·.index) = some (-1)) :
    ((ids.foldl submitBoUpdate h).get? k).map (·.index) = some (-1) := by
  induction ids generalizing h with
  | nil => exact hk
  | cons j rest ih =>
    exact ih _ (submitBoUpdate_index_sticky h j k hk)

/-- The bookkeeping loop clears idle, resets the index, and clears the
backing bo's idle flag, for every bo id occurring in the list. -/
theorem foldl_submit_marks (ids : List Nat) (h : List BoState) (i : Nat)
    (hmem : i ∈ ids) (b : BoState) (hg : h.get? i = some b)
    (hb : b.backing < h.length) :
    (((ids.foldl submitBoUpdate h).get? i).map (·.idle) = some false) ∧
    (((ids.foldl submitBoUpdate h).get? i).map (·.index) = some (-1)) ∧
    (((ids.foldl submitBoUpdate h).get? b.backing).map (·.idle)
      = some false) := by
  induction ids generalizing h b with
  | nil => cases hmem
  | cons j rest ih =>
    simp only [List.foldl_cons]
    rcases List.mem_cons.mp hmem with hij | hmem2
    · subst hij
      have post := submitBoUpdate_post h i b hg hb
      exact ⟨foldl_submit_idle_sticky rest _ i post.1,
             foldl_submit_index_sticky rest _ i post.2.1,
             foldl_submit_idle_sticky rest _ b.backing post.2.2⟩
    · have hback := submitBoUpdate_backing h j i
      rw [hg] at hback
      cases hgi : (submitBoUpdate h j).get? i with
      | none => rw [hgi] at hback; cases hback
      | some b' =>
        rw [hgi] at hback
        have hbb' : b'.backing = b.backing := by
          simpa using hback
        have hlen := submitBoUpdate_length h j
        have hres := ih _ hmem2 b' hgi (by rw [hlen, hbb']; exact hb)
        rw [hbb'] at hres
        exact hres

/-- C6: on the path where the sync-array allocation is not the problem
(no fences, or the calloc succeeds), Submit returns the kernel's
`DRM_IOCTL_XE_EXEC` code unchanged and issues that ioctl exactly once;
in no-hardware mode it returns 0 and never issues the ioctl. -/
theorem xe_batch_submit_ret_spec (env : SubmitEnv) (batch : IrisBatch)
    (heap : List BoState)
    (hmem : batch.exec_fences.length = 0 ∨ env.callocOK = true) :
    (env.no_hw = true →
      (xe_batch_submit env batch heap).ret = 0 ∧
      ((xe_batch_submit env batch heap).events.countP (·.isXeExec)) = 0) ∧
    (env.no_hw = false →
      (xe_batch_submit env batch heap).ret = env.execRet ∧
      ((xe_batch_submit env batch heap).events.countP (·.isXeExec)) = 1) := by
  have hcond : ¬(batch.exec_fences.length ≠ 0 ∧ ¬env.callocOK = true) := by
    rcases hmem with h | h <;> simp [h]
  unfold xe_batch_submit
  rw [if_neg hcond]
  by_cases h1 : env.debugBatch = true <;>
  by_cases h2 : env.debugSubmit = true <;>
  by_cases h3 : env.no_hw = true <;>
    simp [h1, h2, h3, List.countP_append, List.countP_cons,
      SubmitEvent.isXeExec]

/-- Witness for C6: both modes at a concrete batch and heap. -/
theorem xe_batch_submit_ret_spec_witness :
    ((xe_batch_submit ⟨false, false, true, true, -9⟩ batch0 heap0).ret = 0 ∧
      ((xe_batch_submit ⟨false, false, true, true, -9⟩ batch0
        heap0).events.countP (·.isXeExec)) = 0) ∧
    ((xe_batch_submit ⟨false, false, false, true, -9⟩ batch0 heap0).ret = -9 ∧
      ((xe_batch_submit ⟨false, false, false, true, -9⟩ batch0
        heap0).events.countP (·.isXeExec)) = 1) :=
  ⟨(xe_batch_submit_ret_spec ⟨false, false, true, true, -9⟩ batch0 heap0
      (Or.inr rfl)).1 rfl,
   (xe_batch_submit_ret_spec ⟨false, false, false, true, -9⟩ batch0 heap0
      (Or.inr rfl)).2 rfl⟩

/-- C7: a Submit that returns 0 (which rules out the early `-ENOMEM`
exit) has run the bookkeeping loop, so every bo referenced by the batch
ends with `idle = false`, `index = -1`, and its backing bo (read through
its `backing` field, which the loop never changes) with `idle = false`. -/
theorem xe_batch_submit_marks_busy (env : SubmitEnv) (batch : IrisBatch)
    (heap : List BoState)
    (hret : (xe_batch_submit env batch heap).ret = 0) (i : Nat)
    (hmem : i ∈ batch.exec_bos) (b : BoState) (hg : heap.get? i = some b)
    (hb : b.backing < heap.length) :
    (((xe_batch_submit env batch heap).heap.get? i).map (·.idle)
      = some false) ∧
    (((xe_batch_submit env batch heap).heap.get? i).map (·.index)
      = some (-1)) ∧
    (((xe_batch_submit env batch heap).heap.get? b.backing).map (·.idle)
      = some false) := by
  by_cases hc : batch.exec_fences.length ≠ 0 ∧ ¬env.callocOK = true
  · exfalso
    unfold xe_batch_submit at hret
    rw [if_pos hc] at hret
    norm_num [ENOMEM] at hret
  · unfold xe_batch_submit
    rw [if_neg hc]
    exact foldl_submit_marks batch.exec_bos heap i hmem b hg hb

/-- Witness for C7: the concrete batch over `heap0`, whose bo 0 is a
view backed by bo 1; after Submit both end not idle and bo 0's index is
reset. -/
theorem xe_batch_submit_marks_busy_witness :
    (((xe_batch_submit ⟨false, false, false, true, 0⟩ batch0
        heap0).heap.get? 0).map (·.idle) = some false) ∧
    (((xe_batch_submit ⟨false, false, false, true, 0⟩ batch0
        heap0).heap.get? 0).map (·.index) = some (-1)) ∧
    (((xe_batch_submit ⟨false, false, false, true, 0⟩ batch0
        heap0).heap.get? 1).map (·.idle) = some false) :=
  xe_batch_submit_marks_busy ⟨false, false, false, true, 0⟩ batch0 heap0
    (by decide) 0 (by decide)
    { address := 65536, idle := true, index := 3, backing := 1,
      refcount := 2 } (by decide) (by decide)

/-- C10: when there are fences and the calloc of the translated sync
array fails, Submit returns `-ENOMEM`, the lock is released (one lock,
one unlock, and the trace ends on the unlock), the kernel submission is
never issued, and the heap — every bo's idle flag, index and reference
count — is untouched. -/
theorem xe_batch_submit_nomem (env : SubmitEnv) (batch : IrisBatch)
    (heap : List BoState) (hlen : batch.exec_fences.length ≠ 0)
    (hcal : env.callocOK = false) :
    (xe_batch_submit env batch heap).ret = -ENOMEM ∧
    (xe_batch_submit env batch heap).heap = heap ∧
    (xe_batch_submit env batch heap).events.getLast?
      = some SubmitEvent.unlock ∧
    ((xe_batch_submit env batch heap).events.count SubmitEvent.lock = 1 ∧
      (xe_batch_submit env batch heap).events.count SubmitEvent.unlock
        = 1) ∧
    ((xe_batch_submit env batch heap).events.countP (·.isXeExec)) = 0 := by
  unfold xe_batch_submit
  rw [if_pos ⟨hlen, by simp [hcal]⟩]
  by_cases h1 : env.debugBatch = true <;>
    simp [h1, List.count_append, List.count_cons, List.countP_append,
      List.countP_cons, SubmitEvent.isXeExec, List.getLast?]

/-- Witness for C10: concrete failing-calloc submit over `heap0`. -/
theorem xe_batch_submit_nomem_witness :
    (xe_batch_submit ⟨false, false, false, false, -9⟩ batch0 heap0).ret
      = -ENOMEM ∧
    (xe_batch_submit ⟨false, false, false, false, -9⟩ batch0 heap0).heap
      = heap0 ∧
    (xe_batch_submit ⟨false, false, false, false, -9⟩ batch0
      heap0).events.getLast? = some SubmitEvent.unlock ∧
    ((xe_batch_submit ⟨false, false, false, false, -9⟩ batch0
        heap0).events.count SubmitEvent.lock = 1 ∧
      (xe_batch_submit ⟨false, false, false, false, -9⟩ batch0
        heap0).events.count SubmitEvent.unlock = 1) ∧
    ((xe_batch_submit ⟨false, false, false, false, -9⟩ batch0
      heap0).events.countP (·.isXeExec)) = 0 :=
  xe_batch_submit_nomem ⟨false, false, false, false, -9⟩ batch0 heap0
    (by decide) rfl
